import Mathlib

/-!
Shallow embedding of the insurance-claims-agent pipeline
(`app/models.py`, `app/validator.py`, `app/router.py`,
`app/extractor_llm.py`, `app/reasoning_llm.py`).

Python optional strings are `Option String`; Python truthiness of an
optional string (`None` and `""` are falsy) is `str_falsy`.  Numbers are
modelled as `ℚ`.  JSON values decoded from the language-model reply are
the inductive `Json`; pydantic coercion of the raw mapping into
`ClaimData` is `ClaimValidator.coerce_claim_data`, failing in `Except`
exactly where pydantic raises a validation error (wrong type, malformed
nested object), ignoring unrecognized keys.
-/

/-- JSON values, the shape of the language model's decoded reply. -/
inductive Json where
  | null : Json
  | str (s : String) : Json
  | num (q : ℚ) : Json
  | bool (b : Bool) : Json
  | arr (elems : List Json) : Json
  | obj (fields : List (String × Json)) : Json

/-- An untyped key/value mapping decoded from the extractor's reply
(`extracted_data: Dict[str, Any]`). -/
def RawExtraction : Type := List (String × Json)

/-- `PolicyInformation` model from `app/models.py`. -/
structure PolicyInformation where
  policy_number : Option String := none
  policyholder_name : Option String := none
  effective_dates : Option String := none
deriving Repr, DecidableEq

/-- `IncidentInformation` model from `app/models.py`. -/
structure IncidentInformation where
  date : Option String := none
  time : Option String := none
  location : Option String := none
  description : Option String := none
deriving Repr, DecidableEq

/-- `InvolvedParties` model from `app/models.py`. -/
structure InvolvedParties where
  claimant : Option String := none
  third_parties : Option (List String) := none
  contact_details : Option String := none
deriving Repr, DecidableEq

/-- `AssetDetails` model from `app/models.py`. -/
structure AssetDetails where
  asset_type : Option String := none
  asset_id : Option String := none
  estimated_damage : Option ℚ := none
deriving Repr, DecidableEq

/-- `ClaimData` model from `app/models.py`. -/
structure ClaimData where
  policy_information : Option PolicyInformation := none
  incident_information : Option IncidentInformation := none
  involved_parties : Option InvolvedParties := none
  asset_details : Option AssetDetails := none
  claim_type : Option String := none
  attachments : Option (List String) := none
  initial_estimate : Option ℚ := none
deriving Repr, DecidableEq

/-- `ClaimData()`: the all-absent claim the validator substitutes when
coercion fails. -/
def ClaimData.empty : ClaimData := {}

/-- Python `str.lower()` (ASCII case mapping), written on the character
list so that it evaluates by kernel reduction. -/
def str_lower (s : String) : String := String.mk (s.data.map Char.toLower)

/-- Emptiness of a string, written on the character list. -/
def str_empty (s : String) : Bool := s.data.isEmpty

/-- Python truthiness of an optional string: `not x` is true exactly for
`None` and the empty string. -/
def str_falsy : Option String → Bool
  | none => true
  | some s => str_empty s

/-- `ClaimValidator.MANDATORY_FIELDS` from `app/validator.py`. -/
def ClaimValidator.MANDATORY_FIELDS : List String :=
  [ "policy_information.policy_number"
  , "policy_information.policyholder_name"
  , "incident_information.date"
  , "incident_information.location"
  , "incident_information.description"
  , "involved_parties.claimant"
  , "asset_details.estimated_damage"
  , "claim_type" ]

/-- `not claim_data.policy_information or not claim_data.policy_information.policy_number`. -/
def ClaimValidator.policy_number_absent (claim_data : ClaimData) : Bool :=
  match claim_data.policy_information with
  | none => true
  | some pi => str_falsy pi.policy_number

/-- `not claim_data.policy_information or not claim_data.policy_information.policyholder_name`. -/
def ClaimValidator.policyholder_name_absent (claim_data : ClaimData) : Bool :=
  match claim_data.policy_information with
  | none => true
  | some pi => str_falsy pi.policyholder_name

/-- `not claim_data.incident_information or not claim_data.incident_information.date`. -/
def ClaimValidator.date_absent (claim_data : ClaimData) : Bool :=
  match claim_data.incident_information with
  | none => true
  | some ii => str_falsy ii.date

/-- `not claim_data.incident_information or not claim_data.incident_information.location`. -/
def ClaimValidator.location_absent (claim_data : ClaimData) : Bool :=
  match claim_data.incident_information with
  | none => true
  | some ii => str_falsy ii.location

/-- `not claim_data.incident_information or not claim_data.incident_information.description`. -/
def ClaimValidator.description_absent (claim_data : ClaimData) : Bool :=
  match claim_data.incident_information with
  | none => true
  | some ii => str_falsy ii.description

/-- `not claim_data.involved_parties or not claim_data.involved_parties.claimant`. -/
def ClaimValidator.claimant_absent (claim_data : ClaimData) : Bool :=
  match claim_data.involved_parties with
  | none => true
  | some ip => str_falsy ip.claimant

/-- `not claim_data.asset_details or claim_data.asset_details.estimated_damage is None`:
an `is None` test, so a value of `0` counts as present. -/
def ClaimValidator.estimated_damage_absent (claim_data : ClaimData) : Bool :=
  match claim_data.asset_details with
  | none => true
  | some ad => ad.estimated_damage.isNone

/-- `not claim_data.claim_type`. -/
def ClaimValidator.claim_type_absent (claim_data : ClaimData) : Bool :=
  str_falsy claim_data.claim_type

/-- `ClaimValidator._check_mandatory_fields`: eight sequential guarded
appends, in checklist declaration order. -/
def ClaimValidator.check_mandatory_fields (claim_data : ClaimData) : List String :=
  (if ClaimValidator.policy_number_absent claim_data
    then ["policy_information.policy_number"] else []) ++
  (if ClaimValidator.policyholder_name_absent claim_data
    then ["policy_information.policyholder_name"] else []) ++
  (if ClaimValidator.date_absent claim_data
    then ["incident_information.date"] else []) ++
  (if ClaimValidator.location_absent claim_data
    then ["incident_information.location"] else []) ++
  (if ClaimValidator.description_absent claim_data
    then ["incident_information.description"] else []) ++
  (if ClaimValidator.claimant_absent claim_data
    then ["involved_parties.claimant"] else []) ++
  (if ClaimValidator.estimated_damage_absent claim_data
    then ["asset_details.estimated_damage"] else []) ++
  (if ClaimValidator.claim_type_absent claim_data
    then ["claim_type"] else [])

/-- Coerce a JSON value standing at an `Optional[str]` field. -/
def coerce_opt_str : Option Json → Except String (Option String)
  | none => .ok none
  | some .null => .ok none
  | some (.str s) => .ok (some s)
  | some _ => .error "expected string or null"

/-- Coerce a JSON value standing at an `Optional[float]` field. -/
def coerce_opt_num : Option Json → Except String (Option ℚ)
  | none => .ok none
  | some .null => .ok none
  | some (.num q) => .ok (some q)
  | some _ => .error "expected number or null"

/-- Coerce a JSON value standing at an `Optional[List[str]]` field. -/
def coerce_opt_str_list : Option Json → Except String (Option (List String))
  | none => .ok none
  | some .null => .ok none
  | some (.arr elems) => do
      let strs ← elems.mapM (fun j =>
        match j with
        | .str s => Except.ok s
        | _ => Except.error "expected string element")
      .ok (some strs)
  | some _ => .error "expected list or null"

/-- Coerce a JSON value standing at an `Optional[PolicyInformation]` field. -/
def coerce_policy_information : Option Json → Except String (Option PolicyInformation)
  | none => .ok none
  | some .null => .ok none
  | some (.obj fields) => do
      let pn ← coerce_opt_str (fields.lookup "policy_number")
      let ph ← coerce_opt_str (fields.lookup "policyholder_name")
      let ed ← coerce_opt_str (fields.lookup "effective_dates")
      .ok (some ⟨pn, ph, ed⟩)
  | some _ => .error "expected object or null"

/-- Coerce a JSON value standing at an `Optional[IncidentInformation]` field. -/
def coerce_incident_information : Option Json → Except String (Option IncidentInformation)
  | none => .ok none
  | some .null => .ok none
  | some (.obj fields) => do
      let d ← coerce_opt_str (fields.lookup "date")
      let t ← coerce_opt_str (fields.lookup "time")
      let l ← coerce_opt_str (fields.lookup "location")
      let ds ← coerce_opt_str (fields.lookup "description")
      .ok (some ⟨d, t, l, ds⟩)
  | some _ => .error "expected object or null"

/-- Coerce a JSON value standing at an `Optional[InvolvedParties]` field. -/
def coerce_involved_parties : Option Json → Except String (Option InvolvedParties)
  | none => .ok none
  | some .null => .ok none
  | some (.obj fields) => do
      let c ← coerce_opt_str (fields.lookup "claimant")
      let tp ← coerce_opt_str_list (fields.lookup "third_parties")
      let cd ← coerce_opt_str (fields.lookup "contact_details")
      .ok (some ⟨c, tp, cd⟩)
  | some _ => .error "expected object or null"

/-- Coerce a JSON value standing at an `Optional[AssetDetails]` field. -/
def coerce_asset_details : Option Json → Except String (Option AssetDetails)
  | none => .ok none
  | some .null => .ok none
  | some (.obj fields) => do
      let at_ ← coerce_opt_str (fields.lookup "asset_type")
      let ai ← coerce_opt_str (fields.lookup "asset_id")
      let ed ← coerce_opt_num (fields.lookup "estimated_damage")
      .ok (some ⟨at_, ai, ed⟩)
  | some _ => .error "expected object or null"

/-- `ClaimData(**extracted_data)`: pydantic coercion of the raw mapping.
Any structurally invalid value fails the entire coercion; unrecognized
keys are ignored; absent keys default to `None`. -/
def ClaimValidator.coerce_claim_data (extracted_data : RawExtraction) :
    Except String ClaimData := do
  let pi ← coerce_policy_information (extracted_data.lookup "policy_information")
  let ii ← coerce_incident_information (extracted_data.lookup "incident_information")
  let ip ← coerce_involved_parties (extracted_data.lookup "involved_parties")
  let ad ← coerce_asset_details (extracted_data.lookup "asset_details")
  let ct ← coerce_opt_str (extracted_data.lookup "claim_type")
  let att ← coerce_opt_str_list (extracted_data.lookup "attachments")
  let ie ← coerce_opt_num (extracted_data.lookup "initial_estimate")
  .ok ⟨pi, ii, ip, ad, ct, att, ie⟩

/-- `ClaimValidator.validate`: coerce, substituting `ClaimData()` on any
coercion error, then compute the missing-field list. -/
def ClaimValidator.validate (extracted_data : RawExtraction) :
    ClaimData × List String :=
  let claim_data :=
    match ClaimValidator.coerce_claim_data extracted_data with
    | .ok c => c
    | .error _ => ClaimData.empty
  (claim_data, ClaimValidator.check_mandatory_fields claim_data)

/-- `ClaimRouter.INVESTIGATION_KEYWORDS` from `app/router.py`. -/
def ClaimRouter.INVESTIGATION_KEYWORDS : List String :=
  ["fraud", "inconsistent", "staged"]

/-- `ClaimRouter.FAST_TRACK_THRESHOLD` from `app/router.py`. -/
def ClaimRouter.FAST_TRACK_THRESHOLD : ℚ := 25000

/-- Python `needle in hay` on lists of characters: some suffix of `hay`
has `needle` as a prefix. -/
def list_has_sub (needle : List Char) : List Char → Bool
  | [] => needle.isEmpty
  | c :: rest => needle.isPrefixOf (c :: rest) || list_has_sub needle rest

/-- Python substring containment `needle in hay` on strings. -/
def str_contains_sub (hay needle : String) : Bool :=
  list_has_sub needle.data hay.data

/-- The router's local `description`: the lower-cased incident
description when the group and the field are truthy, else `""`. -/
def ClaimRouter.description_of (claim_data : ClaimData) : String :=
  match claim_data.incident_information with
  | some ii =>
      match ii.description with
      | some d => if str_empty d then "" else str_lower d
      | none => ""
  | none => ""

/-- The router's injury test:
`claim_data.claim_type and claim_data.claim_type.lower() == "injury"`. -/
def ClaimRouter.is_injury (claim_data : ClaimData) : Bool :=
  match claim_data.claim_type with
  | some t => !str_empty t && str_lower t == "injury"
  | none => false

/-- The router's local `estimated_damage`:
set when `claim_data.asset_details` is truthy and the value is not `None`. -/
def ClaimRouter.damage_of (claim_data : ClaimData) : Option ℚ :=
  match claim_data.asset_details with
  | some ad => ad.estimated_damage
  | none => none

/-- `ClaimRouter.route_claim` from `app/router.py`: the decision tree,
first matching rule wins. -/
def ClaimRouter.route_claim (claim_data : ClaimData) (missing_fields : List String) :
    String :=
  if missing_fields ≠ [] then "Manual review"
  else if ClaimRouter.INVESTIGATION_KEYWORDS.any
      (fun keyword => str_contains_sub (ClaimRouter.description_of claim_data) keyword)
    then "Investigation Flag"
  else if ClaimRouter.is_injury claim_data then "Specialist Queue"
  else
    match ClaimRouter.damage_of claim_data with
    | some d =>
        if d < ClaimRouter.FAST_TRACK_THRESHOLD then "Fast-track"
        else "Standard Processing"
    | none => "Standard Processing"

/-- C1: with any non-empty missing-field list, `route_claim` returns
`"Manual review"` for every claim, before every other rule. -/
theorem route_claim_missing_manual_review (claim_data : ClaimData)
    (missing_fields : List String) (h : missing_fields ≠ []) :
    ClaimRouter.route_claim claim_data missing_fields = "Manual review" := by
  simp [ClaimRouter.route_claim, h]

/-- Witness for C1 at a concrete claim and missing list. -/
theorem route_claim_missing_manual_review_witness :
    ClaimRouter.route_claim
      { claim_type := some "injury"
      , asset_details := some { estimated_damage := some 3000 } }
      ["claim_type"] = "Manual review" :=
  route_claim_missing_manual_review _ _ (by simp)

/-- C2: with an empty missing-field list, a configured investigation
keyword occurring in the case-folded description routes to
`"Investigation Flag"`, whatever the claim type or damage. -/
theorem route_claim_keyword_investigation (claim_data : ClaimData)
    (h : ∃ kw ∈ ClaimRouter.INVESTIGATION_KEYWORDS,
      str_contains_sub (ClaimRouter.description_of claim_data) kw = true) :
    ClaimRouter.route_claim claim_data [] = "Investigation Flag" := by
  have hany : ClaimRouter.INVESTIGATION_KEYWORDS.any
      (fun keyword =>
        str_contains_sub (ClaimRouter.description_of claim_data) keyword) = true := by
    rw [List.any_eq_true]
    obtain ⟨kw, hkw, hsub⟩ := h
    exact ⟨kw, hkw, hsub⟩
  simp [ClaimRouter.route_claim, hany]

/-- Witness for C2: an injury claim with low damage and `"Staged"` in the
description still goes to investigation. -/
theorem route_claim_keyword_investigation_witness :
    ClaimRouter.route_claim
      { incident_information := some { description := some "Staged collision at night" }
      , claim_type := some "Injury"
      , asset_details := some { estimated_damage := some 3000 } }
      [] = "Investigation Flag" :=
  route_claim_keyword_investigation _ ⟨"staged", by decide, by decide⟩

/-- C3: with an empty missing-field list, no keyword hit, and a claim
type case-insensitively equal to `"injury"`, the route is
`"Specialist Queue"` for any damage amount. -/
theorem route_claim_injury_specialist (claim_data : ClaimData)
    (hkw : ∀ kw ∈ ClaimRouter.INVESTIGATION_KEYWORDS,
      str_contains_sub (ClaimRouter.description_of claim_data) kw = false)
    (hty : ∃ t, claim_data.claim_type = some t ∧ str_lower t = "injury") :
    ClaimRouter.route_claim claim_data [] = "Specialist Queue" := by
  have hany : ClaimRouter.INVESTIGATION_KEYWORDS.any
      (fun keyword =>
        str_contains_sub (ClaimRouter.description_of claim_data) keyword) = false := by
    rw [List.any_eq_false]
    intro kw hkw'
    simp [hkw kw hkw']
  obtain ⟨t, ht, hlow⟩ := hty
  have ht0 : str_empty t = false := by
    cases hd : t.data with
    | cons c cs => simp [str_empty, hd]
    | nil =>
        exfalso
        have hemp : str_lower t = "" := by simp [str_lower, hd]
        rw [hemp] at hlow
        exact absurd hlow (by decide)
  have hinj : ClaimRouter.is_injury claim_data = true := by
    simp [ClaimRouter.is_injury, ht, ht0, hlow]
  simp [ClaimRouter.route_claim, hany, hinj]

/-- Witness for C3: claim type `"Injury"` with high damage and a clean
description goes to the specialist queue. -/
theorem route_claim_injury_specialist_witness :
    ClaimRouter.route_claim
      { incident_information := some { description := some "rear-end collision" }
      , claim_type := some "Injury"
      , asset_details := some { estimated_damage := some 100000 } }
      [] = "Specialist Queue" :=
  route_claim_injury_specialist _ (by decide) ⟨"Injury", rfl, by decide⟩



/-- C4: with an empty missing-field list, no keyword hit and a
non-injury claim type, a present damage strictly below 25000 routes to
`"Fast-track"` and a damage of 25000 or more routes to
`"Standard Processing"`. -/
theorem route_claim_damage_threshold (claim_data : ClaimData)
    (hkw : ∀ kw ∈ ClaimRouter.INVESTIGATION_KEYWORDS,
      str_contains_sub (ClaimRouter.description_of claim_data) kw = false)
    (hty : ∀ t, claim_data.claim_type = some t → str_lower t ≠ "injury")
    (d : ℚ) (hd : ClaimRouter.damage_of claim_data = some d) :
    (d < 25000 → ClaimRouter.route_claim claim_data [] = "Fast-track") ∧
    (25000 ≤ d → ClaimRouter.route_claim claim_data [] = "Standard Processing") := by
  have hany : ClaimRouter.INVESTIGATION_KEYWORDS.any
      (fun keyword =>
        str_contains_sub (ClaimRouter.description_of claim_data) keyword) = false := by
    rw [List.any_eq_false]
    intro kw hkw'
    simp [hkw kw hkw']
  have hinj : ClaimRouter.is_injury claim_data = false := by
    cases hct : claim_data.claim_type with
    | none => simp [ClaimRouter.is_injury, hct]
    | some t =>
        have hne : (str_lower t == "injury") = false :=
          beq_eq_false_iff_ne.mpr (hty t hct)
        simp [ClaimRouter.is_injury, hct, hne]
  have h1 : ClaimRouter.route_claim claim_data [] =
      (if d < 25000 then "Fast-track" else "Standard Processing") := by
    simp [ClaimRouter.route_claim, hany, hinj, hd, ClaimRouter.FAST_TRACK_THRESHOLD]
  constructor
  · intro hlt
    rw [h1, if_pos hlt]
  · intro hge
    rw [h1, if_neg (not_lt.mpr hge)]

/-- Witness for C4: damage 3000 fast-tracks; damage exactly 25000 goes
to standard processing. -/
theorem route_claim_damage_threshold_witness :
    ClaimRouter.route_claim
      { incident_information := some { description := some "minor dent" }
      , claim_type := some "Auto"
      , asset_details := some { estimated_damage := some 3000 } } [] = "Fast-track" ∧
    ClaimRouter.route_claim
      { incident_information := some { description := some "minor dent" }
      , claim_type := some "Auto"
      , asset_details := some { estimated_damage := some 25000 } } [] = "Standard Processing" :=
  ⟨(route_claim_damage_threshold _ (by decide)
      (by intro t ht; injection ht with h; rw [← h]; decide) 3000 (by rfl)).1 (by norm_num),
   (route_claim_damage_threshold _ (by decide)
      (by intro t ht; injection ht with h; rw [← h]; decide) 25000 (by rfl)).2 (by norm_num)⟩

/-- Membership in one guarded singleton chunk of the checklist scan. -/
theorem mem_if_singleton {p x : String} {b : Bool} :
    p ∈ (if b then [x] else []) ↔ b = true ∧ p = x := by
  cases b <;> simp

/-- C6: the missing-field list is a sublist of the 8-element checklist in
declaration order, has no duplicates, and contains no path outside the
checklist. -/
theorem check_mandatory_fields_sublist (claim_data : ClaimData) :
    List.Sublist (ClaimValidator.check_mandatory_fields claim_data)
      ClaimValidator.MANDATORY_FIELDS ∧
    (ClaimValidator.check_mandatory_fields claim_data).Nodup ∧
    ∀ p ∈ ClaimValidator.check_mandatory_fields claim_data,
      p ∈ ClaimValidator.MANDATORY_FIELDS := by
  have base : ∀ (b : Bool) (x : String), List.Sublist (if b then [x] else []) [x] := by
    intro b x
    cases b <;> simp
  have hs : List.Sublist (ClaimValidator.check_mandatory_fields claim_data)
      ClaimValidator.MANDATORY_FIELDS :=
    (((((((base _ _).append (base _ _)).append (base _ _)).append (base _ _)).append
      (base _ _)).append (base _ _)).append (base _ _)).append (base _ _)
  exact ⟨hs, hs.nodup (by decide), fun p hp => hs.subset hp⟩

/-- C7: with `asset_details` present, `"asset_details.estimated_damage"`
is listed as missing exactly when the value is `None`; in particular a
value of `0` is present. -/
theorem estimated_damage_missing_iff (claim_data : ClaimData) (ad : AssetDetails)
    (h : claim_data.asset_details = some ad) :
    ("asset_details.estimated_damage" ∈ ClaimValidator.check_mandatory_fields claim_data
      ↔ ad.estimated_damage = none) := by
  simp [ClaimValidator.check_mandatory_fields, List.mem_append, mem_if_singleton,
    ClaimValidator.estimated_damage_absent, h, Option.isNone_iff_eq_none]

/-- Witness for C7: a damage of exactly `0` is not reported missing. -/
theorem estimated_damage_missing_iff_witness :
    "asset_details.estimated_damage" ∉ ClaimValidator.check_mandatory_fields
      { asset_details := some { estimated_damage := some 0 } } :=
  fun hmem => Option.noConfusion ((estimated_damage_missing_iff _ _ rfl).mp hmem)

/-- C5: whenever coercion of the raw extraction fails, `validate` still
returns a pair, with the all-absent claim and the full 8-element
checklist as the missing list. -/
theorem validate_coercion_error (extracted_data : RawExtraction) (e : String)
    (h : ClaimValidator.coerce_claim_data extracted_data = .error e) :
    ClaimValidator.validate extracted_data =
      (ClaimData.empty, ClaimValidator.MANDATORY_FIELDS) := by
  unfold ClaimValidator.validate
  rw [h]
  rfl

/-- Witness for C5: a mapping whose `claim_type` is the number `5` fails
coercion and degrades to the all-absent claim with all 8 paths missing. -/
theorem validate_coercion_error_witness :
    ClaimValidator.validate [("claim_type", Json.num 5)] =
      (ClaimData.empty, ClaimValidator.MANDATORY_FIELDS) :=
  validate_coercion_error _ "expected string or null" (by rfl)

/-- C10: a present-but-empty string in any of the seven string-valued
checklist fields is reported missing just like absence, and a claim
whose `claim_type` is `""` routes to `"Manual review"`. -/
theorem empty_string_counts_missing (claim_data : ClaimData) :
    (∀ pi, claim_data.policy_information = some pi → pi.policy_number = some "" →
      "policy_information.policy_number" ∈
        ClaimValidator.check_mandatory_fields claim_data) ∧
    (∀ pi, claim_data.policy_information = some pi → pi.policyholder_name = some "" →
      "policy_information.policyholder_name" ∈
        ClaimValidator.check_mandatory_fields claim_data) ∧
    (∀ ii, claim_data.incident_information = some ii → ii.date = some "" →
      "incident_information.date" ∈
        ClaimValidator.check_mandatory_fields claim_data) ∧
    (∀ ii, claim_data.incident_information = some ii → ii.location = some "" →
      "incident_information.location" ∈
        ClaimValidator.check_mandatory_fields claim_data) ∧
    (∀ ii, claim_data.incident_information = some ii → ii.description = some "" →
      "incident_information.description" ∈
        ClaimValidator.check_mandatory_fields claim_data) ∧
    (∀ ip, claim_data.involved_parties = some ip → ip.claimant = some "" →
      "involved_parties.claimant" ∈
        ClaimValidator.check_mandatory_fields claim_data) ∧
    (claim_data.claim_type = some "" →
      "claim_type" ∈ ClaimValidator.check_mandatory_fields claim_data) ∧
    (claim_data.claim_type = some "" →
      ClaimRouter.route_claim claim_data
        (ClaimValidator.check_mandatory_fields claim_data) = "Manual review") := by
  have hct : claim_data.claim_type = some "" →
      "claim_type" ∈ ClaimValidator.check_mandatory_fields claim_data := by
    intro h
    have hb : ClaimValidator.claim_type_absent claim_data = true := by
      simp [ClaimValidator.claim_type_absent, h, str_falsy, str_empty]
    simp [ClaimValidator.check_mandatory_fields, List.mem_append, mem_if_singleton, hb]
  refine ⟨?_, ?_, ?_, ?_, ?_, ?_, hct, ?_⟩
  · intro pi hpi hv
    have hb : ClaimValidator.policy_number_absent claim_data = true := by
      simp [ClaimValidator.policy_number_absent, hpi, hv, str_falsy, str_empty]
    simp [ClaimValidator.check_mandatory_fields, List.mem_append, mem_if_singleton, hb]
  · intro pi hpi hv
    have hb : ClaimValidator.policyholder_name_absent claim_data = true := by
      simp [ClaimValidator.policyholder_name_absent, hpi, hv, str_falsy, str_empty]
    simp [ClaimValidator.check_mandatory_fields, List.mem_append, mem_if_singleton, hb]
  · intro ii hii hv
    have hb : ClaimValidator.date_absent claim_data = true := by
      simp [ClaimValidator.date_absent, hii, hv, str_falsy, str_empty]
    simp [ClaimValidator.check_mandatory_fields, List.mem_append, mem_if_singleton, hb]
  · intro ii hii hv
    have hb : ClaimValidator.location_absent claim_data = true := by
      simp [ClaimValidator.location_absent, hii, hv, str_falsy, str_empty]
    simp [ClaimValidator.check_mandatory_fields, List.mem_append, mem_if_singleton, hb]
  · intro ii hii hv
    have hb : ClaimValidator.description_absent claim_data = true := by
      simp [ClaimValidator.description_absent, hii, hv, str_falsy, str_empty]
    simp [ClaimValidator.check_mandatory_fields, List.mem_append, mem_if_singleton, hb]
  · intro ip hip hv
    have hb : ClaimValidator.claimant_absent claim_data = true := by
      simp [ClaimValidator.claimant_absent, hip, hv, str_falsy, str_empty]
    simp [ClaimValidator.check_mandatory_fields, List.mem_append, mem_if_singleton, hb]
  · intro h
    have hne : ClaimValidator.check_mandatory_fields claim_data ≠ [] :=
      List.ne_nil_of_mem (hct h)
    simp [ClaimRouter.route_claim, hne]

/-- Witness for C10: a fully-populated claim whose strings are all empty
reports the checklist paths missing and routes to manual review. -/
theorem empty_string_counts_missing_witness :
    "policy_information.policy_number" ∈ ClaimValidator.check_mandatory_fields
      { policy_information := some { policy_number := some "", policyholder_name := some "" }
      , incident_information := some
          { date := some "", location := some "", description := some "" }
      , involved_parties := some { claimant := some "" }
      , asset_details := some { estimated_damage := some 0 }
      , claim_type := some "" } ∧
    ClaimRouter.route_claim
      { policy_information := some { policy_number := some "", policyholder_name := some "" }
      , incident_information := some
          { date := some "", location := some "", description := some "" }
      , involved_parties := some { claimant := some "" }
      , asset_details := some { estimated_damage := some 0 }
      , claim_type := some "" }
      (ClaimValidator.check_mandatory_fields
        { policy_information := some { policy_number := some "", policyholder_name := some "" }
        , incident_information := some
            { date := some "", location := some "", description := some "" }
        , involved_parties := some { claimant := some "" }
        , asset_details := some { estimated_damage := some 0 }
        , claim_type := some "" }) = "Manual review" :=
  ⟨(empty_string_counts_missing _).1 _ rfl rfl,
   (empty_string_counts_missing _).2.2.2.2.2.2.2 rfl⟩

/-- Python `str.strip()` on the character list: drop whitespace at both
ends. -/
def list_trim (cs : List Char) : List Char :=
  ((cs.dropWhile Char.isWhitespace).reverse.dropWhile Char.isWhitespace).reverse

/-- Python `str.strip()`. -/
def str_trim (s : String) : String := String.mk (list_trim s.data)

/-- Python `str.startswith`. -/
def str_startsWith (s pre : String) : Bool := pre.data.isPrefixOf s.data

/-- Python `str.endswith`. -/
def str_endsWith (s suf : String) : Bool := suf.data.reverse.isPrefixOf s.data.reverse

/-- Python slicing `s[n:]`. -/
def str_drop (s : String) (n : Nat) : String := String.mk (s.data.drop n)

/-- Python slicing `s[:-n]`. -/
def str_dropRight (s : String) (n : Nat) : String :=
  String.mk (s.data.take (s.data.length - n))

/-- The opening brace character. -/
def lbrace : Char := Char.ofNat 123

/-- The closing brace character. -/
def rbrace : Char := Char.ofNat 125

/-- Python `str.find`: index of the first occurrence, `-1` if none. -/
def py_find (cs : List Char) (c : Char) : Int :=
  match cs.findIdx? (fun x => x == c) with
  | some i => (i : Int)
  | none => -1

/-- Python `str.rfind`: index of the last occurrence, `-1` if none. -/
def py_rfind (cs : List Char) (c : Char) : Int :=
  match cs.reverse.findIdx? (fun x => x == c) with
  | some i => ((cs.length - 1 - i : Nat) : Int)
  | none => -1

/-- The markdown code-fence stripping done on the reply before parsing
(`extractor_llm.py` lines 64-71). -/
def strip_code_fences (content : String) : String :=
  let c0 := str_trim content
  let c1 := if str_startsWith c0 "```json" then str_drop c0 7 else c0
  let c2 := if str_startsWith c1 "```" then str_drop c1 3 else c1
  let c3 := if str_endsWith c2 "```" then str_dropRight c2 3 else c2
  str_trim c3

/-- The recovery slice of the final-attempt heuristic: the substring
from the first brace to the last brace, when
`json_start >= 0 and json_end > json_start`. -/
def extract_json_substring (content : String) : Option String :=
  let cs := content.data
  let json_start := py_find cs lbrace
  let json_end := py_rfind cs rbrace + 1
  if 0 ≤ json_start ∧ json_start < json_end then
    some (String.mk ((cs.drop json_start.toNat).take (json_end - json_start).toNat))
  else none

/-- One language-model attempt as `extract_fields` sees it: either
`generate_content` (or reading the reply) raised, or it returned text. -/
inductive Attempt where
  | exn : Attempt
  | reply (text : String) : Attempt

/-- `LLMExtractor.extract_fields` as a function of the abstract strict
JSON parse (`json.loads`, an opaque collaborator) and the sequence of
attempt outcomes, the last list entry being the final retry. -/
def LLMExtractor.extract_fields (parse : String → Option Json) :
    List Attempt → Except String Json
  | [] => .error "Failed to extract fields"
  | a :: rest =>
      match a with
      | .exn =>
          if rest.isEmpty then .error "Failed to extract fields after retries"
          else LLMExtractor.extract_fields parse rest
      | .reply text =>
          match parse (strip_code_fences text) with
          | some j => .ok j
          | none =>
              if rest.isEmpty then
                match (extract_json_substring (strip_code_fences text)).bind parse with
                | some j => .ok j
                | none => .error "LLM returned invalid JSON after retries"
              else LLMExtractor.extract_fields parse rest

/-- What one attempt yields before any recovery: nothing on an
exception, else the strict parse of the fence-stripped reply. -/
def attempt_parses (parse : String → Option Json) : Attempt → Option Json
  | .exn => none
  | .reply text => parse (strip_code_fences text)

/-- What the final-attempt heuristic yields: nothing on an exception,
else the parse of the first-brace-to-last-brace slice. -/
def final_recovery (parse : String → Option Json) : Attempt → Option Json
  | .exn => none
  | .reply text => (extract_json_substring (strip_code_fences text)).bind parse

/-- Whether an `Except` result is the error case. -/
def is_error {ε α : Type} : Except ε α → Bool
  | .error _ => true
  | .ok _ => false

/-- A failed non-final attempt just retries: no heuristic runs. -/
theorem extract_fields_cons_fail (parse : String → Option Json) (a : Attempt)
    (rest : List Attempt) (hrest : rest ≠ [])
    (hfail : attempt_parses parse a = none) :
    LLMExtractor.extract_fields parse (a :: rest) =
      LLMExtractor.extract_fields parse rest := by
  have hempty : rest.isEmpty = false := by
    simpa [List.isEmpty_iff] using hrest
  cases a with
  | exn => simp [LLMExtractor.extract_fields, hempty]
  | reply text =>
      have hp : parse (strip_code_fences text) = none := by
        simpa [attempt_parses] using hfail
      simp [LLMExtractor.extract_fields, hp, hempty]

/-- The error characterization of the retry loop, by induction on the
attempt sequence. -/
theorem extract_fields_error_iff (parse : String → Option Json) :
    ∀ attempts : List Attempt,
      is_error (LLMExtractor.extract_fields parse attempts) = true ↔
        (∀ a ∈ attempts, attempt_parses parse a = none) ∧
        (∀ a, attempts.getLast? = some a → final_recovery parse a = none)
  | [] => by simp [LLMExtractor.extract_fields, is_error]
  | [a] => by
      cases a with
      | exn =>
          simp [LLMExtractor.extract_fields, is_error, attempt_parses, final_recovery]
      | reply text =>
          cases hp : parse (strip_code_fences text) with
          | some j =>
              simp [LLMExtractor.extract_fields, hp, is_error, attempt_parses]
          | none =>
              cases hr : (extract_json_substring (strip_code_fences text)).bind parse with
              | some j =>
                  simp [LLMExtractor.extract_fields, hp, hr, is_error, attempt_parses,
                    final_recovery]
              | none =>
                  simp [LLMExtractor.extract_fields, hp, hr, is_error, attempt_parses,
                    final_recovery]
  | a :: b :: rest => by
      have ih := extract_fields_error_iff parse (b :: rest)
      cases hp : attempt_parses parse a with
      | none =>
          rw [extract_fields_cons_fail parse a (b :: rest) (by simp) hp, ih]
          constructor
          · rintro ⟨h1, h2⟩
            refine ⟨fun x hx => ?_, fun x hx => ?_⟩
            · rcases List.mem_cons.mp hx with h | h
              · rw [h]
                exact hp
              · exact h1 x h
            · rw [List.getLast?_cons_cons] at hx
              exact h2 x hx
          · rintro ⟨h1, h2⟩
            exact ⟨fun x hx => h1 x (List.mem_cons_of_mem a hx),
              fun x hx => h2 x (by rw [List.getLast?_cons_cons]; exact hx)⟩
      | some j =>
          cases a with
          | exn => simp [attempt_parses] at hp
          | reply text =>
              have hp' : parse (strip_code_fences text) = some j := by
                simpa [attempt_parses] using hp
              constructor
              · intro habs
                rw [show LLMExtractor.extract_fields parse (.reply text :: b :: rest) =
                    .ok j from by simp [LLMExtractor.extract_fields, hp']] at habs
                simp [is_error] at habs
              · rintro ⟨h1, -⟩
                have hx := h1 (.reply text) (by simp)
                simp [attempt_parses, hp'] at hx

/-- C8: `extract_fields` errors exactly when every attempt fails to
parse and the final-attempt brace-slice heuristic also fails; a failed
non-final attempt retries with no heuristic. -/
theorem extract_fields_error_characterization (parse : String → Option Json)
    (attempts : List Attempt) :
    (is_error (LLMExtractor.extract_fields parse attempts) = true ↔
      (∀ a ∈ attempts, attempt_parses parse a = none) ∧
      (∀ a, attempts.getLast? = some a → final_recovery parse a = none)) ∧
    (∀ (a : Attempt) (rest : List Attempt), rest ≠ [] →
      attempt_parses parse a = none →
      LLMExtractor.extract_fields parse (a :: rest) =
        LLMExtractor.extract_fields parse rest) :=
  ⟨extract_fields_error_iff parse attempts,
   fun a rest h1 h2 => extract_fields_cons_fail parse a rest h1 h2⟩

/-- Witness for C8: with a parser that accepts nothing, three replies
with no recoverable brace slice error out, and a failed first attempt
retries on the remaining two. -/
theorem extract_fields_error_characterization_witness :
    is_error (LLMExtractor.extract_fields (fun _ => none)
      [Attempt.reply "no json here", Attempt.exn, Attempt.reply "still none"]) = true ∧
    LLMExtractor.extract_fields (fun _ => none)
        (Attempt.reply "no json here" :: [Attempt.exn, Attempt.reply "still none"]) =
      LLMExtractor.extract_fields (fun _ => none) [Attempt.exn, Attempt.reply "still none"] :=
  ⟨(extract_fields_error_characterization (fun _ => none)
      [Attempt.reply "no json here", Attempt.exn, Attempt.reply "still none"]).1.mpr
      ⟨by intro a ha; simp at ha; rcases ha with rfl | rfl | rfl <;> rfl,
       by intro a ha; simp at ha; rw [← ha]; rfl⟩,
   (extract_fields_error_characterization (fun _ => none) []).2
      (Attempt.reply "no json here") [Attempt.exn, Attempt.reply "still none"]
      (by simp) rfl⟩

/-- Python `sep.join(xs)`. -/
def join_sep (sep : String) : List String → String
  | [] => ""
  | [s] => s
  | s :: rest => s ++ sep ++ join_sep sep rest

/-- `ReasoningLLM._generate_fallback_reasoning`: the deterministic
templated fallback, selected by missing fields first, then route. -/
def ReasoningLLM.generate_fallback_reasoning (missing_fields : List String)
    (recommended_route : String) : String :=
  if missing_fields ≠ [] then
    "Claim routed to " ++ recommended_route ++ " due to missing mandatory fields: " ++
      join_sep ", " missing_fields ++ "."
  else if recommended_route == "Fast-track" then
    "Claim routed to " ++ recommended_route ++ " due to estimated damage below threshold."
  else if recommended_route == "Investigation Flag" then
    "Claim routed to " ++ recommended_route ++
      " due to suspicious keywords detected in description."
  else if recommended_route == "Specialist Queue" then
    "Claim routed to " ++ recommended_route ++
      " due to injury claim type requiring specialist review."
  else
    "Claim routed to " ++ recommended_route ++ " as standard processing workflow."

/-- `ReasoningLLM.generate_reasoning` as a function of the sequence of
language-model attempt outcomes (`some text` on success, `none` when the
call raised), the last list entry being the final retry; the trailing
`[]` case is the return after the loop. -/
def ReasoningLLM.generate_reasoning (claim_data : ClaimData)
    (attempts : List (Option String)) (missing_fields : List String)
    (recommended_route : String) : String :=
  match attempts with
  | [] => ReasoningLLM.generate_fallback_reasoning missing_fields recommended_route
  | a :: rest =>
      match a with
      | some text => str_trim text
      | none =>
          if rest.isEmpty then
            ReasoningLLM.generate_fallback_reasoning missing_fields recommended_route
          else
            ReasoningLLM.generate_reasoning claim_data rest missing_fields recommended_route

/-- When every language-model attempt fails, `generate_reasoning`
returns the deterministic fallback. -/
theorem generate_reasoning_all_fail (claim_data : ClaimData) :
    ∀ (attempts : List (Option String)) (missing_fields : List String)
      (recommended_route : String),
      (∀ a ∈ attempts, a = none) →
      ReasoningLLM.generate_reasoning claim_data attempts missing_fields recommended_route =
        ReasoningLLM.generate_fallback_reasoning missing_fields recommended_route
  | [], _, _, _ => by simp [ReasoningLLM.generate_reasoning]
  | a :: rest, missing_fields, recommended_route, h => by
      have ha : a = none := h a (by simp)
      subst ha
      cases rest with
      | nil => simp [ReasoningLLM.generate_reasoning]
      | cons b tl =>
          have hrec := generate_reasoning_all_fail claim_data (b :: tl) missing_fields
            recommended_route (fun x hx => h x (List.mem_cons_of_mem none hx))
          simpa [ReasoningLLM.generate_reasoning] using hrec

/-- C9: with every attempt failing, `generate_reasoning` returns the
deterministic templated fallback, selected by non-empty missing fields
first, then by route `Fast-track`, `Investigation Flag`,
`Specialist Queue`, with a generic standard-processing statement
otherwise. -/
theorem generate_reasoning_fallback_total (claim_data : ClaimData)
    (attempts : List (Option String)) (missing_fields : List String)
    (recommended_route : String)
    (h : ∀ a ∈ attempts, a = none) :
    ReasoningLLM.generate_reasoning claim_data attempts missing_fields recommended_route =
      ReasoningLLM.generate_fallback_reasoning missing_fields recommended_route ∧
    (missing_fields ≠ [] →
      ReasoningLLM.generate_fallback_reasoning missing_fields recommended_route =
        "Claim routed to " ++ recommended_route ++ " due to missing mandatory fields: " ++
          join_sep ", " missing_fields ++ ".") ∧
    (missing_fields = [] → recommended_route = "Fast-track" →
      ReasoningLLM.generate_fallback_reasoning missing_fields recommended_route =
        "Claim routed to Fast-track due to estimated damage below threshold.") ∧
    (missing_fields = [] → recommended_route = "Investigation Flag" →
      ReasoningLLM.generate_fallback_reasoning missing_fields recommended_route =
        "Claim routed to Investigation Flag due to suspicious keywords detected in description.") ∧
    (missing_fields = [] → recommended_route = "Specialist Queue" →
      ReasoningLLM.generate_fallback_reasoning missing_fields recommended_route =
        "Claim routed to Specialist Queue due to injury claim type requiring specialist review.") ∧
    (missing_fields = [] → recommended_route ≠ "Fast-track" →
      recommended_route ≠ "Investigation Flag" → recommended_route ≠ "Specialist Queue" →
      ReasoningLLM.generate_fallback_reasoning missing_fields recommended_route =
        "Claim routed to " ++ recommended_route ++ " as standard processing workflow.") := by
  refine ⟨generate_reasoning_all_fail claim_data attempts missing_fields recommended_route h,
    ?_, ?_, ?_, ?_, ?_⟩
  · intro hm
    simp [ReasoningLLM.generate_fallback_reasoning, hm]
  · intro hm hr
    subst hr
    simp [ReasoningLLM.generate_fallback_reasoning, hm]
  · intro hm hr
    subst hr
    simp [ReasoningLLM.generate_fallback_reasoning, hm]
  · intro hm hr
    subst hr
    simp [ReasoningLLM.generate_fallback_reasoning, hm]
  · intro hm h1 h2 h3
    simp [ReasoningLLM.generate_fallback_reasoning, hm,
      beq_eq_false_iff_ne.mpr h1, beq_eq_false_iff_ne.mpr h2, beq_eq_false_iff_ne.mpr h3]

/-- Witness for C9: two failed attempts with one missing field fall back
to the missing-fields template; all-clear attempts with route
`Standard Processing` fall back to the generic statement. -/
theorem generate_reasoning_fallback_total_witness :
    ReasoningLLM.generate_reasoning ClaimData.empty [none, none] ["claim_type"]
        "Manual review" =
      ReasoningLLM.generate_fallback_reasoning ["claim_type"] "Manual review" ∧
    ReasoningLLM.generate_fallback_reasoning ["claim_type"] "Manual review" =
      "Claim routed to Manual review due to missing mandatory fields: claim_type." ∧
    ReasoningLLM.generate_fallback_reasoning ([] : List String) "Standard Processing" =
      "Claim routed to Standard Processing as standard processing workflow." :=
  ⟨(generate_reasoning_fallback_total ClaimData.empty [none, none] ["claim_type"]
      "Manual review" (by simp)).1,
   (generate_reasoning_fallback_total ClaimData.empty [none, none] ["claim_type"]
      "Manual review" (by simp)).2.1 (by simp),
   (generate_reasoning_fallback_total ClaimData.empty [] ([] : List String)
      "Standard Processing" (by simp)).2.2.2.2.2 rfl (by decide) (by decide) (by decide)⟩
